import Mathlib

/-!
Verification of the robot State Manager and RPC Command Dispatcher.

This file gives a shallow embedding of the thread-safe robot manager
(src/robot_manager.py), the simulated hardware layer (src/ArmPil_mini.py),
the configuration record (src/robot_config.py), and the JSON-RPC-like
dispatcher (src/web_server.py, RobotWebHandler.handle_rpc_request), and
proves the testable properties of the design specification against it.

Modelling conventions:
- Python floats are modelled as rationals; every numeric literal of the
  source is exactly representable.
- Each Python method that can raise returns an `Except RobotError`,
  paired with the state of the manager after the call and the total
  duration passed to `time.sleep` during the call (the simulated delay).
- The `timestamp` entries of the result dictionaries (wall-clock reads)
  are omitted from the embedding; no claim concerns them.
- JSON values are modelled by the inductive type `JVal`; Python
  dictionaries appear as association lists in insertion order.
- Locking is not modelled: every operation of the source performs its
  whole body under the single reentrant lock, so each operation is one
  atomic transition of the state.
-/

namespace RobotSpec

/-- JSON-like values: the payloads produced by the manager and the
dispatcher (Python dict / list / str / float / bool / None). -/
inductive JVal where
  | null
  | bool (b : Bool)
  | num (q : ℚ)
  | str (s : String)
  | arr (elems : List JVal)
  | obj (fields : List (String × JVal))

/-- Field access on a JSON object: `none` when the value is not an
object or the key is absent. -/
def JVal.getField (j : JVal) (key : String) : Option JVal :=
  match j with
  | .obj kvs => List.lookup key kvs
  | _ => none

/-- Configuration record from robot_config.py (RobotConfig).  Only the
fields the manager consumes are kept. -/
structure RobotConfig where
  force_demo_mode : Bool
  max_position_x : ℚ
  max_position_y : ℚ
  max_position_z : ℚ

/-- Default configuration values of RobotConfig (force_demo_mode False,
max_position_x 300.0, max_position_y 300.0, max_position_z 100.0). -/
def defaultConfig : RobotConfig :=
  { force_demo_mode := false
    max_position_x := 300
    max_position_y := 300
    max_position_z := 100 }

/-- Board from ArmPil_mini.py: hardware handle with demo-mode support. -/
structure Board where
  connected : Bool
  demo_mode : Bool
deriving DecidableEq

/-- Board.__init__ of ArmPil_mini.py: the hardware import always raises
ImportError (the source deliberately raises it), so the constructor
always ends with `demo_mode = True` and `connected = False`. -/
def Board.init : Board := { connected := false, demo_mode := true }

/-- Python builtin max on two rationals (returns the second argument
when the two are equal, like Python max returns the first maximal one;
on a total order the value is the same either way). -/
def pymax (a b : ℚ) : ℚ := if a ≤ b then b else a

/-- Python builtin abs on a rational. -/
def pyabs (a : ℚ) : ℚ := if a < 0 then -a else a

/-- Board.move_to_position: in demo mode sleeps
max(0.3, |x|*0.01 + |y|*0.01 + |z|*0.01) and returns True; otherwise
`self.hardware` is None so it falls through and returns False.
Result: (returned success flag, duration slept). -/
def Board.move_to_position (b : Board) (x y z : ℚ) : Bool × ℚ :=
  if b.demo_mode then
    (true, pymax (3/10) (pyabs x * (1/100) + pyabs y * (1/100) + pyabs z * (1/100)))
  else
    (false, 0)

/-- Board.set_gripper: demo mode returns True; the non-demo branch is
`pass`, so Python returns None (modelled as `none`). -/
def Board.set_gripper (b : Board) (_open_state : Bool) : Option Bool :=
  if b.demo_mode then some true else none

/-- Board.emergency_stop: demo mode returns True; the non-demo branch is
`pass`, so Python returns None. -/
def Board.emergency_stop (b : Board) : Option Bool :=
  if b.demo_mode then some true else none

/-- Position triple (the x, y, z coordinates of the arm). -/
structure Pos where
  x : ℚ
  y : ℚ
  z : ℚ
deriving DecidableEq

/-- Board.get_position: demo mode returns (100, 50, 25) plus a random
offset in ([-5,5], [-5,5], [-2,2]); the randomness is modelled by the
jitter arguments. The non-demo branch is `pass`, returning None. -/
def Board.get_position (b : Board) (jx jy jz : ℚ) : Option Pos :=
  if b.demo_mode then some { x := 100 + jx, y := 50 + jy, z := 25 + jz } else none

/-- Camera from ArmPil_mini.py. -/
structure Camera where
  connected : Bool
  demo_mode : Bool
deriving DecidableEq

/-- Camera.__init__ of ArmPil_mini.py: like Board.__init__, the import
always raises, so the constructor always ends in demo mode,
disconnected. -/
def Camera.init : Camera := { connected := false, demo_mode := true }

/-- The fixed 1x1-pixel base64 payload returned by the demo camera and
by the demo branch of RobotManager.capture_image (identical literals in
the source). -/
def demo_image_b64 : String :=
  "iVBORw0KGgoAAAANSUhEUgAAAAEAAAABCAYAAAAfFcSJAAAADUlEQVR42mNkYPhfDwAChwGA60e6kgAAAABJRU5ErkJggg=="

/-- Camera.capture_image: demo mode returns the fixed base64 string;
the non-demo branch is `pass`, returning None. -/
def Camera.capture_image (c : Camera) : Option String :=
  if c.demo_mode then some demo_image_b64 else none

/-- The mutable state of the RobotManager singleton
(robot_manager.py __init__): board and camera handles, the
`_robot_available` flag, the last commanded position, the gripper flag
and the emergency-stop flag. -/
structure RobotManager where
  board : Option Board
  camera : Option Camera
  robot_available : Bool
  last_position : Pos
  gripper_open : Bool
  emergency_stopped : Bool
deriving DecidableEq

/-- Field values set by RobotManager.__init__ before
_initialize_hardware runs: no handles, not available, last position
(100.0, 50.0, 25.0), gripper closed, not emergency stopped. -/
def RobotManager.base : RobotManager :=
  { board := none
    camera := none
    robot_available := false
    last_position := { x := 100, y := 50, z := 25 }
    gripper_open := false
    emergency_stopped := false }

/-- RobotManager.__init__ followed by _initialize_hardware: when demo
mode is forced the handles stay None and `_robot_available` stays
False; otherwise Board() and Camera() are constructed (their
constructors never raise) and `_robot_available` is set to
`board is not None and hasattr(board, connected) and board.connected`,
which is the `connected` flag of the fresh board. -/
def RobotManager.init (cfg : RobotConfig) : RobotManager :=
  if cfg.force_demo_mode then
    RobotManager.base
  else
    let b := Board.init
    let c := Camera.init
    { RobotManager.base with
        board := some b
        camera := some c
        robot_available := b.connected }

/-- Exceptions raised by the manager: ValueError (the InvalidArgument
kind of the specification) and RuntimeError (the IllegalState kind). -/
inductive RobotError where
  | valueError (msg : String)
  | runtimeError (msg : String)
deriving DecidableEq

/-- Result of one manager operation: the returned dictionary or the
raised exception, the manager state after the call, and the total
duration passed to time.sleep during the call. -/
structure OpResult where
  response : Except RobotError (List (String × JVal))
  state : RobotManager
  sleep : ℚ

/-- The message of the RuntimeError raised by RobotManager._robot_context
when the emergency-stop flag is set. -/
def emergencyMsg : String := "Robot is in emergency stop state"

/-- Python truthiness of an optional boolean (None is falsy). -/
def truthy : Option Bool → Bool
  | some b => b
  | none => false

/-- JSON encoding of an optional boolean (None encodes as null). -/
def optBoolJ : Option Bool → JVal
  | some b => .bool b
  | none => .null

/-- JSON encoding of an optional string (None encodes as null). -/
def optStrJ : Option String → JVal
  | some s => .str s
  | none => .null

/-- JSON object for a position dictionary made of the three coordinates. -/
def posJ (p : Pos) : JVal :=
  .obj [("x", .num p.x), ("y", .num p.y), ("z", .num p.z)]

/-- RobotManager.get_status: snapshot dictionary of the current state
(timestamp omitted). -/
def RobotManager.get_status (m : RobotManager) : List (String × JVal) :=
  [("robot_available", .bool m.robot_available),
   ("board_connected", .bool (match m.board with | some b => b.connected | none => false)),
   ("camera_connected", .bool (match m.camera with | some c => c.connected | none => false)),
   ("demo_mode", .bool (!m.robot_available)),
   ("emergency_stopped", .bool m.emergency_stopped),
   ("gripper_open", .bool m.gripper_open)]

/-- RobotManager.move_to_position: validates each coordinate against
the configured bounds (raising ValueError), then enters _robot_context
(raising RuntimeError when emergency stopped), then either drives the
board (`if self._robot_available and self._board`) or simulates the
movement: sleep max(0.5, |x - last.x| * 0.01), update the position and
return the success dictionary. -/
def RobotManager.move_to_position (cfg : RobotConfig) (m : RobotManager)
    (x y z : ℚ) : OpResult :=
  if ¬ (-cfg.max_position_x ≤ x ∧ x ≤ cfg.max_position_x) then
    { response := .error (.valueError "X position out of range")
      state := m, sleep := 0 }
  else if ¬ (-cfg.max_position_y ≤ y ∧ y ≤ cfg.max_position_y) then
    { response := .error (.valueError "Y position out of range")
      state := m, sleep := 0 }
  else if ¬ (0 ≤ z ∧ z ≤ cfg.max_position_z) then
    { response := .error (.valueError "Z position out of range")
      state := m, sleep := 0 }
  else if m.emergency_stopped then
    { response := .error (.runtimeError emergencyMsg), state := m, sleep := 0 }
  else
    let demo : OpResult :=
      let movement_time := pymax (1/2 : ℚ) (pyabs (x - m.last_position.x) * (1/100))
      let m2 := { m with last_position := { x := x, y := y, z := z } }
      { response := .ok
          [("success", .bool true),
           ("message", .str "Demo: Simulated movement"),
           ("position", posJ { x := x, y := y, z := z }),
           ("demo_mode", .bool true)]
        state := m2, sleep := movement_time }
    match m.board with
    | some b =>
        if m.robot_available then
          let r := b.move_to_position x y z
          let m2 := if r.1 then { m with last_position := { x := x, y := y, z := z } } else m
          { response := .ok
              [("success", .bool r.1),
               ("message", .str "Moved to position"),
               ("position", posJ m2.last_position)]
            state := m2, sleep := r.2 }
        else demo
    | none => demo

/-- RobotManager.get_position: enters _robot_context (raising
RuntimeError when emergency stopped); in the hardware branch reads the
board position (a None result would make the subscript raise, caught
and turned into a fallback dictionary) and stores it as the last
position; in the demo branch returns the last position plus a random
offset without mutating anything. The random draws are modelled by the
jitter arguments. -/
def RobotManager.get_position (m : RobotManager) (jx jy jz : ℚ) : OpResult :=
  if m.emergency_stopped then
    { response := .error (.runtimeError emergencyMsg), state := m, sleep := 0 }
  else
    let demo : OpResult :=
      let p := m.last_position
      { response := .ok
          [("position", posJ { x := p.x + jx, y := p.y + jy, z := p.z + jz }),
           ("demo_mode", .bool true)]
        state := m, sleep := 0 }
    match m.board with
    | some b =>
        if m.robot_available then
          match b.get_position jx jy jz with
          | some p =>
              { response := .ok [("position", posJ p)]
                state := { m with last_position := p }, sleep := 0 }
          | none =>
              { response := .ok
                  [("position", posJ m.last_position),
                   ("error", .str "Hardware error")]
                state := m, sleep := 0 }
        else demo
    | none => demo

/-- RobotManager.control_gripper: enters _robot_context (raising
RuntimeError when emergency stopped); the hardware branch calls
Board.set_gripper and records the new gripper state only when the
returned value is truthy; the demo branch records the new state and
sleeps 0.5. -/
def RobotManager.control_gripper (m : RobotManager) (open_state : Bool) : OpResult :=
  if m.emergency_stopped then
    { response := .error (.runtimeError emergencyMsg), state := m, sleep := 0 }
  else
    let demo : OpResult :=
      let m2 := { m with gripper_open := open_state }
      { response := .ok
          [("success", .bool true),
           ("message", .str (if open_state then "Demo: Gripper opened" else "Demo: Gripper closed")),
           ("gripper_open", .bool m2.gripper_open),
           ("demo_mode", .bool true)]
        state := m2, sleep := 1/2 }
    match m.board with
    | some b =>
        if m.robot_available then
          let success := b.set_gripper open_state
          let m2 := if truthy success then { m with gripper_open := open_state } else m
          { response := .ok
              [("success", optBoolJ success),
               ("message", .str (if open_state then "Gripper opened" else "Gripper closed")),
               ("gripper_open", .bool m2.gripper_open)]
            state := m2, sleep := 0 }
        else demo
    | none => demo

/-- RobotManager.capture_image: enters _robot_context (raising
RuntimeError when emergency stopped); the hardware branch returns the
camera payload; the demo branch sleeps 0.3 and returns the fixed
base64 demo image. No branch mutates the state. -/
def RobotManager.capture_image (m : RobotManager) : OpResult :=
  if m.emergency_stopped then
    { response := .error (.runtimeError emergencyMsg), state := m, sleep := 0 }
  else
    let demo : OpResult :=
      { response := .ok
          [("success", .bool true),
           ("image_data", .str demo_image_b64),
           ("demo_mode", .bool true),
           ("message", .str "Demo image captured")]
        state := m, sleep := 3/10 }
    match m.camera with
    | some c =>
        if m.robot_available then
          { response := .ok
              [("success", .bool true),
               ("image_data", optStrJ c.capture_image)]
            state := m, sleep := 0 }
        else demo
    | none => demo

/-- RobotManager.emergency_stop: takes the lock directly (not through
_robot_context), sets the emergency flag unconditionally, then in the
hardware branch asks the board to stop (the demo board returns True
and never raises), and returns the activation dictionary. -/
def RobotManager.emergency_stop (m : RobotManager) : OpResult :=
  let m2 := { m with emergency_stopped := true }
  let demo : OpResult :=
    { response := .ok
        [("success", .bool true),
         ("message", .str "Demo: Emergency stop activated"),
         ("emergency_stopped", .bool true),
         ("demo_mode", .bool true)]
      state := m2, sleep := 0 }
  match m.board with
  | some b =>
      if m.robot_available then
        { response := .ok
            [("success", optBoolJ b.emergency_stop),
             ("message", .str "Emergency stop activated"),
             ("emergency_stopped", .bool true)]
          state := m2, sleep := 0 }
      else demo
  | none => demo

/-- RobotManager.reset_emergency_stop: clears the emergency flag and
returns the reset dictionary; always succeeds. -/
def RobotManager.reset_emergency_stop (m : RobotManager) : OpResult :=
  { response := .ok
      [("success", .bool true),
       ("message", .str "Emergency stop reset"),
       ("emergency_stopped", .bool false)]
    state := { m with emergency_stopped := false }, sleep := 0 }

/-- RobotManager.shutdown: drops the hardware handles and clears
`_robot_available` (the demo handles have no shutdown methods). -/
def RobotManager.shutdown (m : RobotManager) : RobotManager :=
  { m with board := none, camera := none, robot_available := false }

/-- States of the manager reachable from initialization under the
public operations (get_status is read-only and omitted). -/
inductive Reachable (cfg : RobotConfig) : RobotManager → Prop where
  | init : Reachable cfg (RobotManager.init cfg)
  | move (m : RobotManager) (x y z : ℚ) :
      Reachable cfg m → Reachable cfg (m.move_to_position cfg x y z).state
  | getPosition (m : RobotManager) (jx jy jz : ℚ) :
      Reachable cfg m → Reachable cfg (m.get_position jx jy jz).state
  | gripper (m : RobotManager) (b : Bool) :
      Reachable cfg m → Reachable cfg (m.control_gripper b).state
  | capture (m : RobotManager) :
      Reachable cfg m → Reachable cfg m.capture_image.state
  | estop (m : RobotManager) :
      Reachable cfg m → Reachable cfg m.emergency_stop.state
  | reset (m : RobotManager) :
      Reachable cfg m → Reachable cfg m.reset_emergency_stop.state
  | shutdown (m : RobotManager) :
      Reachable cfg m → Reachable cfg m.shutdown

/-! ## Command Dispatcher (web_server.py, RobotWebHandler.handle_rpc_request) -/

/-- The keys of the rpc_functions registry of web_server.py, in
registration (decorator execution) order. -/
def rpc_function_names : List String :=
  ["get_robot_status", "move_robot", "get_robot_position", "control_gripper",
   "capture_image", "emergency_stop", "get_available_functions",
   "reset_emergency_stop", "list_3d_models"]

/-- Whether a JSON value is hashable in Python: a list or dict used as
the method name makes the registry membership test raise TypeError. -/
def JVal.hashable : JVal → Bool
  | .arr _ => false
  | .obj _ => false
  | _ => true

/-- Text of a JSON value for use inside an error message (Python
str-formats the method name; only the string case is exercised by any
property below, so the other cases are rendered as an empty string). -/
def JVal.text : JVal → String
  | .str s => s
  | _ => ""

/-- Outcome of invoking a registered handler with the given parameters:
a returned value or a raised exception (parameter-binding TypeErrors
included). -/
inductive HandlerOutcome where
  | ok (v : JVal)
  | raise (msg : String)

/-- An HTTP reply of the dispatcher: the JSON body and the status code. -/
structure RpcResponse where
  body : JVal
  status : Nat

/-- The reply built by the outer `except` clause of handle_rpc_request:
code -32700, Parse error, and id None (the id of the request, even
when present, is not consulted on this path). -/
def parse_error_response (details : String) : RpcResponse :=
  { body := .obj
      [("jsonrpc", .str "2.0"),
       ("error", .obj
          [("code", .num (-32700)),
           ("message", .str "Parse error"),
           ("data", .obj [("error_details", .str details)])]),
       ("id", .null)]
    status := 400 }

/-- RobotWebHandler.handle_rpc_request. The body argument is the parsed
request: `none` stands for an empty, unparseable or non-object body
(every such body ends in the outer except clause). The `call` argument
abstracts the invocation of a registered handler on the given
parameters. Paths, in source order: empty/unparseable body raises and
is caught by the outer clause; a missing method key raises ValueError,
caught by the outer clause; an unhashable method value makes the
registry test raise TypeError, caught by the outer clause; an unknown
method yields the -32601 envelope carrying the registry keys; a
handler exception yields the -32603 envelope; success wraps the
handler result. The last three echo the request id (defaulting to
null when absent). -/
def handle_rpc_request (call : String → JVal → HandlerOutcome)
    (body : Option (List (String × JVal))) : RpcResponse :=
  match body with
  | none => parse_error_response "Empty request body"
  | some request_data =>
    match List.lookup "method" request_data with
    | none => parse_error_response "Missing method in request"
    | some method_name =>
      let params := (List.lookup "params" request_data).getD (.obj [])
      let request_id := (List.lookup "id" request_data).getD .null
      if method_name.hashable = false then
        parse_error_response "unhashable type"
      else
        let not_found : RpcResponse :=
          { body := .obj
              [("jsonrpc", .str "2.0"),
               ("error", .obj
                  [("code", .num (-32601)),
                   ("message", .str ("Method " ++ method_name.text ++ " not found")),
                   ("data", .obj
                      [("available_methods", .arr (rpc_function_names.map JVal.str))])]),
               ("id", request_id)]
            status := 200 }
        match method_name with
        | .str s =>
          if rpc_function_names.contains s then
            match call s params with
            | .ok result =>
                { body := .obj
                    [("jsonrpc", .str "2.0"),
                     ("result", result),
                     ("id", request_id)]
                  status := 200 }
            | .raise msg =>
                { body := .obj
                    [("jsonrpc", .str "2.0"),
                     ("error", .obj
                        [("code", .num (-32603)),
                         ("message", .str ("Internal error in " ++ s)),
                         ("data", .obj [("error_details", .str msg)])]),
                     ("id", request_id)]
                  status := 200 }
          else not_found
        | _ => not_found

/-! ## Derived predicates -/

/-- Whether the three coordinates pass the validation of
move_to_position: x and y within the symmetric configured ranges, z
within [0, max]. -/
def inBounds (cfg : RobotConfig) (x y z : ℚ) : Prop :=
  (-cfg.max_position_x ≤ x ∧ x ≤ cfg.max_position_x) ∧
  (-cfg.max_position_y ≤ y ∧ y ≤ cfg.max_position_y) ∧
  (0 ≤ z ∧ z ≤ cfg.max_position_z)

instance (cfg : RobotConfig) (x y z : ℚ) : Decidable (inBounds cfg x y z) := by
  unfold inBounds; infer_instance

/-- The operation raised ValueError, the InvalidArgument kind. -/
def failsInvalidArgument (r : OpResult) : Prop :=
  ∃ msg, r.response = .error (.valueError msg)

/-- The operation raised RuntimeError, the IllegalState kind. -/
def failsIllegalState (r : OpResult) : Prop :=
  ∃ msg, r.response = .error (.runtimeError msg)

/-- The operation returned a dictionary instead of raising. -/
def succeeds (r : OpResult) : Prop :=
  ∃ kvs, r.response = .ok kvs

/-- The manager produced by RobotManager() at import time, under the
default configuration (no environment overrides). -/
def initManager : RobotManager := RobotManager.init defaultConfig

/-- A trivial handler evaluation used to instantiate dispatcher
theorems on concrete requests: every handler returns None. -/
def call0 : String → JVal → HandlerOutcome := fun _ _ => .ok .null

/-! ## Helper lemmas -/

theorem move_state_robot_available (cfg : RobotConfig) (m : RobotManager) (x y z : ℚ) :
    (m.move_to_position cfg x y z).state.robot_available = m.robot_available := by
  unfold RobotManager.move_to_position
  dsimp only
  repeat' split
  all_goals rfl

theorem get_position_state_robot_available (m : RobotManager) (jx jy jz : ℚ) :
    (m.get_position jx jy jz).state.robot_available = m.robot_available := by
  unfold RobotManager.get_position
  dsimp only
  repeat' split
  all_goals rfl

theorem control_gripper_state_robot_available (m : RobotManager) (b : Bool) :
    (m.control_gripper b).state.robot_available = m.robot_available := by
  unfold RobotManager.control_gripper
  dsimp only
  repeat' split
  all_goals rfl

theorem capture_image_state (m : RobotManager) :
    m.capture_image.state = m := by
  unfold RobotManager.capture_image
  dsimp only
  repeat' split
  all_goals rfl

theorem emergency_stop_state (m : RobotManager) :
    m.emergency_stop.state = { m with emergency_stopped := true } := by
  unfold RobotManager.emergency_stop
  dsimp only
  repeat' split
  all_goals rfl

theorem reset_emergency_stop_state (m : RobotManager) :
    m.reset_emergency_stop.state = { m with emergency_stopped := false } := rfl

/-- No reachable state ever has the `_robot_available` flag set: the
initializer computes it from the always-false `connected` flag of the
demo board, and no operation raises it. -/
theorem reachable_robot_available_false (cfg : RobotConfig) (m : RobotManager)
    (h : Reachable cfg m) : m.robot_available = false := by
  induction h with
  | init => unfold RobotManager.init; split <;> rfl
  | move m x y z _ ih => rw [move_state_robot_available]; exact ih
  | getPosition m jx jy jz _ ih => rw [get_position_state_robot_available]; exact ih
  | gripper m b _ ih => rw [control_gripper_state_robot_available]; exact ih
  | capture m _ ih => rw [capture_image_state]; exact ih
  | estop m _ ih => rw [emergency_stop_state]; exact ih
  | reset m _ ih => rw [reset_emergency_stop_state]; exact ih
  | shutdown m _ _ => rfl

theorem move_state_estop (cfg : RobotConfig) (m : RobotManager) (x y z : ℚ) :
    (m.move_to_position cfg x y z).state.emergency_stopped = m.emergency_stopped := by
  unfold RobotManager.move_to_position
  dsimp only
  repeat' split
  all_goals rfl

theorem get_position_state_estop (m : RobotManager) (jx jy jz : ℚ) :
    (m.get_position jx jy jz).state.emergency_stopped = m.emergency_stopped := by
  unfold RobotManager.get_position
  dsimp only
  repeat' split
  all_goals rfl

theorem control_gripper_state_estop (m : RobotManager) (b : Bool) :
    (m.control_gripper b).state.emergency_stopped = m.emergency_stopped := by
  unfold RobotManager.control_gripper
  dsimp only
  repeat' split
  all_goals rfl

theorem move_out_of_bounds (cfg : RobotConfig) (m : RobotManager) (x y z : ℚ)
    (h : ¬ inBounds cfg x y z) :
    failsInvalidArgument (m.move_to_position cfg x y z) ∧
    (m.move_to_position cfg x y z).state = m ∧
    (m.move_to_position cfg x y z).sleep = 0 := by
  unfold RobotManager.move_to_position
  by_cases hx : (-cfg.max_position_x ≤ x ∧ x ≤ cfg.max_position_x)
  · rw [if_neg (not_not_intro hx)]
    by_cases hy : (-cfg.max_position_y ≤ y ∧ y ≤ cfg.max_position_y)
    · rw [if_neg (not_not_intro hy)]
      by_cases hz : ((0:ℚ) ≤ z ∧ z ≤ cfg.max_position_z)
      · exact absurd ⟨hx, hy, hz⟩ h
      · rw [if_pos hz]; exact ⟨⟨_, rfl⟩, rfl, rfl⟩
    · rw [if_pos hy]; exact ⟨⟨_, rfl⟩, rfl, rfl⟩
  · rw [if_pos hx]; exact ⟨⟨_, rfl⟩, rfl, rfl⟩

theorem move_stopped (cfg : RobotConfig) (m : RobotManager) (x y z : ℚ)
    (hb : inBounds cfg x y z) (hes : m.emergency_stopped = true) :
    (m.move_to_position cfg x y z).response = .error (.runtimeError emergencyMsg) ∧
    (m.move_to_position cfg x y z).state = m := by
  obtain ⟨hx, hy, hz⟩ := hb
  unfold RobotManager.move_to_position
  rw [if_neg (not_not_intro hx), if_neg (not_not_intro hy), if_neg (not_not_intro hz),
    if_pos hes]
  exact ⟨rfl, rfl⟩

/-- Full description of a successful move in demo mode: the success
dictionary with the commanded position, the new state, and the
simulated delay max(0.5, |x - last.x| * 0.01). -/
theorem move_demo_spec (cfg : RobotConfig) (m : RobotManager) (x y z : ℚ)
    (hra : m.robot_available = false) (hes : m.emergency_stopped = false)
    (hb : inBounds cfg x y z) :
    m.move_to_position cfg x y z =
      { response := .ok
          [("success", .bool true),
           ("message", .str "Demo: Simulated movement"),
           ("position", posJ { x := x, y := y, z := z }),
           ("demo_mode", .bool true)]
        state := { m with last_position := { x := x, y := y, z := z } }
        sleep := pymax (1/2 : ℚ) (pyabs (x - m.last_position.x) * (1/100)) } := by
  obtain ⟨hx, hy, hz⟩ := hb
  unfold RobotManager.move_to_position
  rw [if_neg (not_not_intro hx), if_neg (not_not_intro hy), if_neg (not_not_intro hz),
    if_neg (by simp [hes])]
  cases hbd : m.board with
  | none => rfl
  | some b => dsimp only; rw [if_neg (by simp [hra])]

theorem move_ok (cfg : RobotConfig) (m : RobotManager) (x y z : ℚ)
    (hb : inBounds cfg x y z) (hes : m.emergency_stopped = false) :
    succeeds (m.move_to_position cfg x y z) := by
  obtain ⟨hx, hy, hz⟩ := hb
  unfold RobotManager.move_to_position
  rw [if_neg (not_not_intro hx), if_neg (not_not_intro hy), if_neg (not_not_intro hz),
    if_neg (by simp [hes])]
  dsimp only
  repeat' split
  all_goals exact ⟨_, rfl⟩

theorem gripper_stopped (m : RobotManager) (b : Bool)
    (hes : m.emergency_stopped = true) :
    (m.control_gripper b).response = .error (.runtimeError emergencyMsg) ∧
    (m.control_gripper b).state = m := by
  unfold RobotManager.control_gripper
  rw [if_pos hes]
  exact ⟨rfl, rfl⟩

theorem gripper_ok (m : RobotManager) (b : Bool)
    (hes : m.emergency_stopped = false) :
    succeeds (m.control_gripper b) := by
  unfold RobotManager.control_gripper
  rw [if_neg (by simp [hes])]
  dsimp only
  repeat' split
  all_goals exact ⟨_, rfl⟩

theorem capture_stopped (m : RobotManager)
    (hes : m.emergency_stopped = true) :
    m.capture_image.response = .error (.runtimeError emergencyMsg) := by
  unfold RobotManager.capture_image
  rw [if_pos hes]

theorem get_position_stopped (m : RobotManager) (jx jy jz : ℚ)
    (hes : m.emergency_stopped = true) :
    (m.get_position jx jy jz).response = .error (.runtimeError emergencyMsg) := by
  unfold RobotManager.get_position
  rw [if_pos hes]

/-- Full description of capture_image in demo mode: the fixed payload,
no state change, a 0.3 second delay. -/
theorem capture_demo_spec (m : RobotManager)
    (hra : m.robot_available = false) (hes : m.emergency_stopped = false) :
    m.capture_image =
      { response := .ok
          [("success", .bool true),
           ("image_data", .str demo_image_b64),
           ("demo_mode", .bool true),
           ("message", .str "Demo image captured")]
        state := m, sleep := 3/10 } := by
  unfold RobotManager.capture_image
  rw [if_neg (by simp [hes])]
  cases hc : m.camera with
  | none => rfl
  | some c => dsimp only; rw [if_neg (by simp [hra])]

theorem get_status_no_position (m : RobotManager) :
    List.lookup "position" m.get_status = none := rfl

theorem get_status_estop (m : RobotManager) :
    List.lookup "emergency_stopped" m.get_status = some (.bool m.emergency_stopped) := rfl

theorem get_status_robot_available (m : RobotManager) :
    List.lookup "robot_available" m.get_status = some (.bool m.robot_available) := rfl

/-! ## Claim C1 -/

/-- Claim C1, counterexample: from the freshly initialized manager,
move_to_position(10, 20, 5) succeeds, but the dictionary returned by
get_status carries no "position" entry at all, so the status position
cannot equal the commanded (10, 20, 5). -/
theorem move_then_get_status_has_no_position :
    succeeds (initManager.move_to_position defaultConfig 10 20 5) ∧
    List.lookup "position"
      (initManager.move_to_position defaultConfig 10 20 5).state.get_status
      = none :=
  ⟨⟨_, rfl⟩, rfl⟩

/-- Claim C1 (amended): for in-bounds coordinates and a reachable,
non-emergency-stopped manager, move_to_position succeeds, its own
result dictionary and the internal last position reflect the commanded
(x, y, z) exactly, and a subsequent get_status reports
emergency_stopped false; get_status however contains no position entry
(the commanded position is visible in the move result, not in the
status). -/
theorem move_updates_internal_position (cfg : RobotConfig) (m : RobotManager)
    (x y z : ℚ) (hr : Reachable cfg m) (hes : m.emergency_stopped = false)
    (hb : inBounds cfg x y z) :
    (m.move_to_position cfg x y z).response = .ok
        [("success", .bool true),
         ("message", .str "Demo: Simulated movement"),
         ("position", posJ { x := x, y := y, z := z }),
         ("demo_mode", .bool true)] ∧
    (m.move_to_position cfg x y z).state.last_position = { x := x, y := y, z := z } ∧
    List.lookup "emergency_stopped" (m.move_to_position cfg x y z).state.get_status
      = some (.bool false) ∧
    List.lookup "position" (m.move_to_position cfg x y z).state.get_status = none := by
  have hra := reachable_robot_available_false cfg m hr
  rw [move_demo_spec cfg m x y z hra hes hb]
  refine ⟨rfl, rfl, ?_, rfl⟩
  rw [get_status_estop]
  exact congrArg (fun b => some (JVal.bool b)) hes

/-- Claim C1, witness: the amended theorem applied to the scenario
moveTo(10, 20, 5) from the initial manager. -/
theorem move_updates_internal_position_witness :
    inBounds defaultConfig 10 20 5 ∧
    (initManager.move_to_position defaultConfig 10 20 5).state.last_position
      = { x := 10, y := 20, z := 5 } :=
  ⟨by decide,
   (move_updates_internal_position defaultConfig initManager 10 20 5
      Reachable.init rfl (by decide)).2.1⟩

/-! ## Claim C2 -/

/-- Claim C2: emergency_stop sets the flag; while the flag is set every
in-bounds move_to_position and every control_gripper call raises the
IllegalState RuntimeError; no operation other than
reset_emergency_stop clears the flag; reset_emergency_stop clears it
and succeeds; and with the flag clear, in-bounds move_to_position and
control_gripper return dictionaries again. -/
theorem emergency_stop_blocks_until_reset :
    (∀ m : RobotManager, m.emergency_stop.state.emergency_stopped = true) ∧
    (∀ (cfg : RobotConfig) (m : RobotManager) (x y z : ℚ),
      m.emergency_stopped = true → inBounds cfg x y z →
      (m.move_to_position cfg x y z).response = .error (.runtimeError emergencyMsg)) ∧
    (∀ (m : RobotManager) (b : Bool), m.emergency_stopped = true →
      (m.control_gripper b).response = .error (.runtimeError emergencyMsg)) ∧
    (∀ (cfg : RobotConfig) (m : RobotManager) (x y z jx jy jz : ℚ) (b : Bool),
      m.emergency_stopped = true →
      (m.move_to_position cfg x y z).state.emergency_stopped = true ∧
      (m.control_gripper b).state.emergency_stopped = true ∧
      m.capture_image.state.emergency_stopped = true ∧
      (m.get_position jx jy jz).state.emergency_stopped = true ∧
      m.emergency_stop.state.emergency_stopped = true ∧
      m.shutdown.emergency_stopped = true) ∧
    (∀ m : RobotManager,
      m.reset_emergency_stop.state.emergency_stopped = false ∧
      succeeds m.reset_emergency_stop) ∧
    (∀ (cfg : RobotConfig) (m : RobotManager) (x y z : ℚ) (b : Bool),
      m.emergency_stopped = false → inBounds cfg x y z →
      succeeds (m.move_to_position cfg x y z) ∧ succeeds (m.control_gripper b)) := by
  refine ⟨?_, ?_, ?_, ?_, ?_, ?_⟩
  · intro m; rw [emergency_stop_state]
  · intro cfg m x y z hes hb; exact (move_stopped cfg m x y z hb hes).1
  · intro m b hes; exact (gripper_stopped m b hes).1
  · intro cfg m x y z jx jy jz b hes
    refine ⟨?_, ?_, ?_, ?_, ?_, hes⟩
    · rw [move_state_estop]; exact hes
    · rw [control_gripper_state_estop]; exact hes
    · rw [capture_image_state]; exact hes
    · rw [get_position_state_estop]; exact hes
    · rw [emergency_stop_state]
  · intro m; exact ⟨by rw [reset_emergency_stop_state], _, rfl⟩
  · intro cfg m x y z b hes hb
    exact ⟨move_ok cfg m x y z hb hes, gripper_ok m b hes⟩

/-- Claim C2, witness: the scenario emergencyStop; moveTo(10, 20, 5)
and setGripper fail with the IllegalState error; resetEmergencyStop;
moveTo succeeds again. -/
theorem emergency_stop_blocks_until_reset_witness :
    initManager.emergency_stop.state.emergency_stopped = true ∧
    (initManager.emergency_stop.state.move_to_position defaultConfig 10 20 5).response
      = .error (.runtimeError emergencyMsg) ∧
    (initManager.emergency_stop.state.control_gripper true).response
      = .error (.runtimeError emergencyMsg) ∧
    initManager.emergency_stop.state.reset_emergency_stop.state.emergency_stopped = false ∧
    succeeds
      (initManager.emergency_stop.state.reset_emergency_stop.state.move_to_position
        defaultConfig 10 20 5) :=
  ⟨emergency_stop_blocks_until_reset.1 initManager,
   emergency_stop_blocks_until_reset.2.1 defaultConfig _ 10 20 5 rfl (by decide),
   emergency_stop_blocks_until_reset.2.2.1 _ true rfl,
   (emergency_stop_blocks_until_reset.2.2.2.2.1 _).1,
   (emergency_stop_blocks_until_reset.2.2.2.2.2 defaultConfig _ 10 20 5 true rfl
      (by decide)).1⟩

/-! ## Claim C3 -/

/-- Claim C3: a move with any coordinate outside the configured bounds
raises ValueError (the InvalidArgument kind), leaves the state exactly
as it was and performs no sleep. -/
theorem move_out_of_bounds_rejected (cfg : RobotConfig) (m : RobotManager)
    (x y z : ℚ) (h : ¬ inBounds cfg x y z) :
    failsInvalidArgument (m.move_to_position cfg x y z) ∧
    (m.move_to_position cfg x y z).state = m ∧
    (m.move_to_position cfg x y z).sleep = 0 :=
  move_out_of_bounds cfg m x y z h

/-- Claim C3, witness: the scenario moveTo(99999, 0, 0) under the
default bound 300. -/
theorem move_out_of_bounds_rejected_witness :
    ¬ inBounds defaultConfig 99999 0 0 ∧
    failsInvalidArgument (initManager.move_to_position defaultConfig 99999 0 0) ∧
    (initManager.move_to_position defaultConfig 99999 0 0).state = initManager :=
  ⟨by decide,
   (move_out_of_bounds_rejected defaultConfig initManager 99999 0 0 (by decide)).1,
   (move_out_of_bounds_rejected defaultConfig initManager 99999 0 0 (by decide)).2.1⟩

/-! ## Claim C4 -/

/-- Claim C4, counterexample: capture_image does not always succeed;
after emergency_stop it raises the IllegalState RuntimeError, because
its body enters _robot_context. -/
theorem capture_image_fails_when_stopped :
    initManager.emergency_stop.state.capture_image.response
      = .error (.runtimeError emergencyMsg) := rfl

/-- Claim C4 (amended): in every reachable manager state that is not
emergency-stopped, capture_image succeeds, returns the fixed
placeholder payload (the same blob on every call) and leaves the state
untouched; when the manager is emergency-stopped it raises the
IllegalState RuntimeError instead. -/
theorem capture_image_fixed_payload (cfg : RobotConfig) (m : RobotManager)
    (hr : Reachable cfg m) (hes : m.emergency_stopped = false) :
    m.capture_image.response = .ok
        [("success", .bool true),
         ("image_data", .str demo_image_b64),
         ("demo_mode", .bool true),
         ("message", .str "Demo image captured")] ∧
    m.capture_image.state = m := by
  have hra := reachable_robot_available_false cfg m hr
  rw [capture_demo_spec m hra hes]
  exact ⟨rfl, rfl⟩

/-- Claim C4, witness: the amended theorem applied to the initial
manager. -/
theorem capture_image_fixed_payload_witness :
    initManager.capture_image.state = initManager :=
  (capture_image_fixed_payload defaultConfig initManager Reachable.init rfl).2

/-! ## Claim C5 -/

/-- Claim C5, counterexample: a request carrying correlation id 42 but
no method key takes the outer exception path of handle_rpc_request,
whose reply hard-codes id None: the id is not echoed on this
malformed-request error. -/
theorem missing_method_drops_correlation_id :
    (handle_rpc_request call0 (some [("id", .num 42)])).body.getField "id"
      = some JVal.null ∧
    JVal.null ≠ JVal.num 42 :=
  ⟨rfl, fun h => nomatch h⟩

/-- Claim C5 (amended): when the request is a JSON object with a method
key whose value is hashable, the response echoes the request
correlation id unchanged in all three outcomes (successful handler
invocation, handler failure, method not found); but on the
malformed-request paths (unparseable or empty body, missing method
key, unhashable method value) the response id is null regardless of
the id carried by the request. -/
theorem dispatcher_echoes_correlation_id :
    (∀ (call : String → JVal → HandlerOutcome) (kvs : List (String × JVal))
       (idv mv : JVal),
      List.lookup "id" kvs = some idv →
      List.lookup "method" kvs = some mv →
      mv.hashable = true →
      (handle_rpc_request call (some kvs)).body.getField "id" = some idv) ∧
    (∀ (call : String → JVal → HandlerOutcome) (kvs : List (String × JVal)),
      List.lookup "method" kvs = none →
      (handle_rpc_request call (some kvs)).body.getField "id" = some JVal.null) ∧
    (∀ call : String → JVal → HandlerOutcome,
      (handle_rpc_request call none).body.getField "id" = some JVal.null) ∧
    (∀ (call : String → JVal → HandlerOutcome) (kvs : List (String × JVal)) (mv : JVal),
      List.lookup "method" kvs = some mv →
      mv.hashable = false →
      (handle_rpc_request call (some kvs)).body.getField "id" = some JVal.null) := by
  refine ⟨?_, ?_, ?_, ?_⟩
  · intro call kvs idv mv hid hm hh
    unfold handle_rpc_request
    dsimp only
    rw [hm]
    dsimp only
    rw [hh, if_neg (by simp)]
    have hlook : (List.lookup "id" kvs).getD JVal.null = idv := by rw [hid]; rfl
    cases mv with
    | str s =>
        dsimp only
        by_cases hc : rpc_function_names.contains s = true
        · rw [if_pos hc]
          cases hcall : call s ((List.lookup "params" kvs).getD (.obj [])) with
          | ok v => rw [hlook]; rfl
          | raise msg => rw [hlook]; rfl
        · rw [if_neg hc, hlook]; rfl
    | null => rw [hlook]; rfl
    | bool b => rw [hlook]; rfl
    | num q => rw [hlook]; rfl
    | arr elems => exact absurd hh (by simp [JVal.hashable])
    | obj fields => exact absurd hh (by simp [JVal.hashable])
  · intro call kvs hm
    unfold handle_rpc_request
    dsimp only
    rw [hm]
    rfl
  · intro call; rfl
  · intro call kvs mv hm hh
    unfold handle_rpc_request
    dsimp only
    rw [hm]
    dsimp only
    rw [hh]
    rfl

/-- Claim C5, witness: a request invoking emergency_stop with id 42 is
answered with id 42. -/
theorem dispatcher_echoes_correlation_id_witness :
    List.lookup "id" [("method", JVal.str "emergency_stop"), ("id", JVal.num 42)]
      = some (JVal.num 42) ∧
    (handle_rpc_request call0
        (some [("method", JVal.str "emergency_stop"), ("id", JVal.num 42)])).body.getField "id"
      = some (JVal.num 42) :=
  ⟨rfl, dispatcher_echoes_correlation_id.1 call0
    [("method", JVal.str "emergency_stop"), ("id", JVal.num 42)]
    (JVal.num 42) (JVal.str "emergency_stop") rfl rfl rfl⟩

/-! ## Claim C6 -/

/-- Claim C6: a request naming a method outside the registry is
answered with the -32601 envelope: a method-not-found message naming
the method, the full list of registered operation names as diagnostic
data, and the request correlation id echoed. -/
theorem unknown_method_returns_32601 (call : String → JVal → HandlerOutcome)
    (kvs : List (String × JVal)) (s : String) (idv : JVal)
    (hm : List.lookup "method" kvs = some (.str s))
    (hniq : rpc_function_names.contains s = false)
    (hid : List.lookup "id" kvs = some idv) :
    handle_rpc_request call (some kvs) =
      { body := .obj
          [("jsonrpc", .str "2.0"),
           ("error", .obj
              [("code", .num (-32601)),
               ("message", .str ("Method " ++ s ++ " not found")),
               ("data", .obj
                  [("available_methods", .arr (rpc_function_names.map JVal.str))])]),
           ("id", idv)]
        status := 200 } := by
  unfold handle_rpc_request
  dsimp only
  rw [hm]
  dsimp only [JVal.hashable]
  rw [if_neg (by simp)]
  rw [hniq]
  rw [if_neg (by simp)]
  rw [hid]
  rfl

/-- Claim C6, witness: invoking the unregistered name bogus_method with
id 7. -/
theorem unknown_method_returns_32601_witness :
    rpc_function_names.contains "bogus_method" = false ∧
    (handle_rpc_request call0
        (some [("method", JVal.str "bogus_method"), ("id", JVal.num 7)])).body.getField "error"
      = some (.obj
          [("code", .num (-32601)),
           ("message", .str ("Method " ++ "bogus_method" ++ " not found")),
           ("data", .obj
              [("available_methods", .arr (rpc_function_names.map JVal.str))])]) :=
  ⟨rfl, by
    rw [unknown_method_returns_32601 call0
      [("method", JVal.str "bogus_method"), ("id", JVal.num 7)]
      "bogus_method" (JVal.num 7) rfl rfl rfl]
    rfl⟩

/-! ## Claim C7 -/

/-- Claim C7: in every reachable state the `_robot_available` flag is
false, and get_status consequently always reports robot_available
false: hardware initialization always ends in demo mode and no
operation ever raises the flag. -/
theorem robot_available_always_false (cfg : RobotConfig) (m : RobotManager)
    (h : Reachable cfg m) :
    m.robot_available = false ∧
    List.lookup "robot_available" m.get_status = some (.bool false) := by
  have hra := reachable_robot_available_false cfg m h
  exact ⟨hra, by rw [get_status_robot_available, hra]⟩

/-- Claim C7, witness: the invariant applied to the freshly initialized
manager. -/
theorem robot_available_always_false_witness :
    Reachable defaultConfig initManager ∧ initManager.robot_available = false :=
  ⟨Reachable.init,
   (robot_available_always_false defaultConfig initManager Reachable.init).1⟩

/-! ## Claim C8 -/

/-- Claim C8, counterexample: the simulated delay of a demo move is not
proportional to the distance traveled and not linear in the three
coordinate deltas: no constant of proportionality fits the code, and
two moves whose y-deltas are 200 and 0 (x and z deltas both zero)
sleep for the same 0.5 seconds. -/
theorem movement_delay_not_proportional :
    (¬ ∃ k : ℚ, ∀ x y z : ℚ, inBounds defaultConfig x y z →
        (initManager.move_to_position defaultConfig x y z).sleep
          = k * (|x - 100| + |y - 50| + |z - 25|)) ∧
    (initManager.move_to_position defaultConfig 100 (-150) 25).sleep = 1/2 ∧
    (initManager.move_to_position defaultConfig 100 50 25).sleep = 1/2 := by
  have hspec1 := move_demo_spec defaultConfig initManager 100 (-150) 25 rfl rfl (by decide)
  have hspec2 := move_demo_spec defaultConfig initManager 100 50 25 rfl rfl (by decide)
  refine ⟨?_, ?_, ?_⟩
  · rintro ⟨k, hk⟩
    have h := hk 100 50 25 (by decide)
    rw [hspec2] at h
    norm_num [pymax, pyabs, initManager, RobotManager.init, defaultConfig,
      RobotManager.base] at h
  · rw [hspec1]
    norm_num [pymax, pyabs, initManager, RobotManager.init, defaultConfig,
      RobotManager.base]
  · rw [hspec2]
    norm_num [pymax, pyabs, initManager, RobotManager.init, defaultConfig,
      RobotManager.base]

/-- Claim C8 (amended): for every successful demo-mode move from a
reachable non-stopped state, the simulated delay is
max(0.5, 0.01 * |x - last.x|): it grows linearly with the absolute
x-delta above a half-second floor and ignores the y and z deltas. -/
theorem movement_delay_formula (cfg : RobotConfig) (m : RobotManager)
    (x y z : ℚ) (hr : Reachable cfg m) (hes : m.emergency_stopped = false)
    (hb : inBounds cfg x y z) :
    (m.move_to_position cfg x y z).sleep
      = pymax (1/2 : ℚ) (pyabs (x - m.last_position.x) * (1/100)) ∧
    succeeds (m.move_to_position cfg x y z) := by
  have hra := reachable_robot_available_false cfg m hr
  rw [move_demo_spec cfg m x y z hra hes hb]
  exact ⟨rfl, _, rfl⟩

/-- Claim C8, witness: moving from the initial position (100, 50, 25)
to (0, 20, 5) sleeps exactly 1 second (x-delta 100). -/
theorem movement_delay_formula_witness :
    inBounds defaultConfig 0 20 5 ∧
    (initManager.move_to_position defaultConfig 0 20 5).sleep = 1 :=
  ⟨by decide, by
    rw [(movement_delay_formula defaultConfig initManager 0 20 5
      Reachable.init rfl (by decide)).1]
    norm_num [pymax, pyabs, initManager, RobotManager.init, defaultConfig,
      RobotManager.base]⟩

/-! ## Claim C9 -/

/-- Claim C9: emergency_stop and reset_emergency_stop are idempotent on
the manager state: from any starting state, calling either twice in a
row yields exactly the state of calling it once. -/
theorem emergency_stop_reset_idempotent (m : RobotManager) :
    m.emergency_stop.state.emergency_stop.state = m.emergency_stop.state ∧
    m.reset_emergency_stop.state.reset_emergency_stop.state
      = m.reset_emergency_stop.state := by
  constructor
  · simp only [emergency_stop_state]
  · simp only [reset_emergency_stop_state]

/-! ## Claim C10 -/

/-- Claim C10: coordinate validation precedes the emergency-stop check:
an out-of-bounds move raises ValueError even while emergency-stopped,
never the IllegalState RuntimeError; the bounds are inclusive at both
ends (x and y over the symmetric range, z over [0, max]); and every
negative z is rejected with ValueError. -/
theorem bounds_checked_before_estop :
    (∀ (cfg : RobotConfig) (m : RobotManager) (x y z : ℚ),
      m.emergency_stopped = true → ¬ inBounds cfg x y z →
      failsInvalidArgument (m.move_to_position cfg x y z)) ∧
    (∀ (cfg : RobotConfig) (m : RobotManager),
      m.emergency_stopped = false →
      0 ≤ cfg.max_position_x → 0 ≤ cfg.max_position_y → 0 ≤ cfg.max_position_z →
      succeeds (m.move_to_position cfg
        cfg.max_position_x cfg.max_position_y cfg.max_position_z) ∧
      succeeds (m.move_to_position cfg
        (-cfg.max_position_x) (-cfg.max_position_y) 0)) ∧
    (∀ (cfg : RobotConfig) (m : RobotManager) (x y z : ℚ),
      z < 0 → failsInvalidArgument (m.move_to_position cfg x y z)) := by
  refine ⟨?_, ?_, ?_⟩
  · intro cfg m x y z _ h
    exact (move_out_of_bounds cfg m x y z h).1
  · intro cfg m hes hx0 hy0 hz0
    constructor
    · exact move_ok cfg m _ _ _
        ⟨⟨neg_nonpos_of_nonneg hx0 |>.trans hx0, le_refl _⟩,
         ⟨neg_nonpos_of_nonneg hy0 |>.trans hy0, le_refl _⟩,
         ⟨hz0.trans (le_refl _), le_refl _⟩⟩ hes
    · exact move_ok cfg m _ _ _
        ⟨⟨le_refl _, neg_nonpos_of_nonneg hx0 |>.trans hx0⟩,
         ⟨le_refl _, neg_nonpos_of_nonneg hy0 |>.trans hy0⟩,
         ⟨le_refl _, hz0⟩⟩ hes
  · intro cfg m x y z hz
    refine (move_out_of_bounds cfg m x y z ?_).1
    intro hb
    exact absurd hb.2.2.1 (not_le.mpr hz)

/-- Claim C10, witness: while emergency-stopped, moveTo(99999, 0, 0)
fails with ValueError (not IllegalState), and moveTo(0, 0, -5) is
rejected from the initial state. -/
theorem bounds_checked_before_estop_witness :
    initManager.emergency_stop.state.emergency_stopped = true ∧
    failsInvalidArgument
      (initManager.emergency_stop.state.move_to_position defaultConfig 99999 0 0) ∧
    failsInvalidArgument (initManager.move_to_position defaultConfig 0 0 (-5)) :=
  ⟨rfl,
   bounds_checked_before_estop.1 defaultConfig _ 99999 0 0 rfl (by decide),
   bounds_checked_before_estop.2.2 defaultConfig initManager 0 0 (-5) (by decide)⟩

end RobotSpec
